import Mathlib

/-!
Verification development for the v3 onion-service client core
(src/tor/src/or/hs_client.c).

The file shallowly embeds the client-side orchestration code: fetch
scheduling pre-checks, the intro-point failure predicate, INTRODUCE1
transmission, INTRODUCE_ACK and RENDEZVOUS2 handling, stream
reconciliation on fetch failure, and the NEWNYM purge.

Modelling conventions:
- Ed25519/Curve25519 public keys, key pairs, rendezvous cookies, extend
  info objects and routerstatus handles are abstracted as natural-number
  handles; byte strings on the wire (RENDEZVOUS2 payloads) are lists of
  naturals.
- Collaborator subsystems that live outside hs_client.c (descriptor
  cache, intro-state cache, consensus, node database, circuit map,
  cell parsing, ntor cryptography, randomized intro-point selection)
  are fields of an explicit environment record: the embedded functions
  consume them exactly where the source calls them.
- Side effects (circuit purpose changes, mark-for-close, stream state
  changes, cache purges, path-bias accounting) are returned in explicit
  result records or threaded state records.
- The source wraps calls to ed25519_public_to_base64 in BUG() guards;
  base64-encoding a 32-byte key cannot fail, so those defensive
  branches are modelled as the successful outcome.
-/

/-- Circuit purposes used by the v3 client state machines
(CIRCUIT_PURPOSE_C_... constants). -/
inductive circuit_purpose_t
  | C_INTRODUCING
  | C_INTRODUCE_ACK_WAIT
  | C_INTRODUCE_ACKED
  | C_ESTABLISH_REND
  | C_REND_READY
  | C_REND_READY_INTRO_ACKED
  | C_REND_JOINED
deriving DecidableEq, Repr

/-- Circuit close reasons (END_CIRC_REASON_* numeric values from or.h). -/
def END_CIRC_REASON_TORPROTOCOL : Nat := 1

/-- Internal-error circuit close reason. -/
def END_CIRC_REASON_INTERNAL : Nat := 2

/-- Finished circuit close reason. -/
def END_CIRC_REASON_FINISHED : Nat := 9

/-- Stream end reason used when a descriptor cannot be resolved
(END_STREAM_REASON_RESOLVEFAILED). -/
def END_STREAM_REASON_RESOLVEFAILED : Nat := 2

/-- Modelled from the spec: MAX_INTRO_POINT_REACHABILITY_FAILURES is
declared in hs_cache.h, which is not under src/; both the spec and the
source comments give the value 3. -/
def MAX_INTRO_POINT_REACHABILITY_FAILURES : Nat := 3

/-- Byte length of a Curve25519 public key. -/
def CURVE25519_PUBKEY_LEN : Nat := 32

/-- Byte length of a 256-bit digest (the AUTH_MAC). -/
def DIGEST256_LEN : Nat := 32

/-- Intro-point failure-cache entry (hs_cache_intro_state_t from
hs_cache.h): generic error flag, timeout flag, unreachable count. -/
structure hs_cache_intro_state_t where
  error : Bool
  timed_out : Bool
  unreachable_count : Nat
deriving DecidableEq, Repr

/-- A link specifier attached to a descriptor intro point; the client
only inspects the legacy identity digest kind (LS_LEGACY_ID). -/
inductive hs_desc_link_specifier_t
  | legacy_id (id : Nat)
  | other_ls
deriving DecidableEq, Repr

/-- Descriptor intro point (hs_desc_intro_point_t): the signed auth key
of its certificate, the Curve25519 encryption key, link specifiers. -/
structure hs_desc_intro_point_t where
  auth_key : Nat
  enc_key : Nat
  link_specifiers : List hs_desc_link_specifier_t
deriving DecidableEq, Repr

/-- Decoded service descriptor as consumed by this file: the encrypted
layer's intro point list and the subcredential. -/
structure hs_descriptor_t where
  intro_points : List hs_desc_intro_point_t
  subcredential : Nat
deriving DecidableEq, Repr

/-- Per-circuit v3 identity (hs_ident_circuit_t from hs_ident.h). -/
structure hs_ident_circuit_t where
  identity_pk : Nat
  intro_auth_pk : Nat
  intro_enc_pk : Nat
  rendezvous_cookie : Nat
  rendezvous_client_kp : Nat
deriving DecidableEq, Repr

/-- The circuit fields hs_client.c reads or writes. -/
structure circuit_t where
  purpose : circuit_purpose_t
  marked_for_close : Option Nat
  timestamp_dirty : Nat
  remaining_relay_early_cells : Nat
  chosen_exit_legacy_id : Nat
deriving DecidableEq, Repr

/-- An origin circuit: circuit fields plus the optional v3 identity
(hs_ident is NULL on the legacy v2 path, which is out of scope). -/
structure origin_circuit_t where
  circ : circuit_t
  hs_ident : Option hs_ident_circuit_t
deriving DecidableEq, Repr

/-- AP (SOCKS) connection states the client core moves streams
between. -/
inductive ap_conn_state_t
  | RENDDESC_WAIT
  | CIRCUIT_WAIT
  | OPEN
deriving DecidableEq, Repr

/-- An application stream as seen by this file: its v3 service identity
(none for non-HS or v2 streams), its state, close bookkeeping and the
pending-circuit registration flag. -/
structure stream_t where
  hs_ident : Option Nat
  state : ap_conn_state_t
  marked_for_close : Bool
  end_reason : Option Nat
  pending_circuit : Bool
deriving DecidableEq, Repr

/-- Client fetch status codes (hs_client_fetch_status_t). -/
inductive hs_client_fetch_status_t
  | ERROR
  | LAUNCHED
  | HAVE_DESC
  | NO_HSDIRS
  | NOT_ALLOWED
  | MISSING_INFO
  | PENDING
deriving DecidableEq, Repr

/-- Rendezvous ntor key material (hs_ntor_rend_cell_keys_t): the key
seed installed on the circuit and the expected AUTH_MAC. -/
structure hs_ntor_rend_cell_keys_t where
  ntor_key_seed : List Nat
  rend_cell_auth_mac : List Nat
deriving DecidableEq, Repr

/-- Environment of collaborator subsystems consulted by hs_client.c.
Each field stands for one external call site: configuration flags,
consensus and node-database predicates, the descriptor cache and
intro-state cache lookups, the pending-directory-request scan, HSDir
selection, blinded-key derivation, wall-clock time, cell transmission
and parsing, ntor key derivation, the rendezvous circuit map, the
randomized intro-point selection (randomness is part of the
environment) and circuit extension. -/
structure client_env where
  FetchHidServDescriptors : Bool
  live_consensus : Bool
  have_minimum_dir_info : Bool
  cache_lookup : Nat → Option hs_descriptor_t
  intro_state_find : Nat → Nat → Option hs_cache_intro_state_t
  dir_request_pending : Nat → Bool
  pick_hsdir : Nat → Option Nat
  blinded_pk : Nat → Nat
  now : Nat
  send_introduce1_ok : Bool
  collab_close_reason : Nat
  ntor_keys : Nat → Nat → Nat → List Nat → Option hs_ntor_rend_cell_keys_t
  get_established_rend_by_cookie : Nat → Option origin_circuit_t
  get_rend_by_cookie : Nat → Option origin_circuit_t
  parse_introduce_ack : List Nat → Int
  client_random_intro : Nat → Option Nat
  circuit_extend_to_new_exit : Nat → Int
  v2_introduce_ack_ret : Int
  v2_rendezvous2_ret : Int

/-- Mutable client-side bookkeeping threaded through the fetch
scheduler: the stream list, the recently-queried-HSDirs memory (keyed
by blinded key) and a log of launched directory fetches. -/
structure hs_client_state where
  streams : List stream_t
  hidserv_history : List Nat
  launched_fetches : List Nat
deriving DecidableEq, Repr

/-- circuit_mark_for_close: marking is a no-op when the circuit is
already marked (the source guards its call sites accordingly). -/
def circuit_mark_for_close (c : circuit_t) (reason : Nat) : circuit_t :=
  if c.marked_for_close.isSome then c
  else { c with marked_for_close := some reason }

/-- fetch_status_should_close_socks: true iff the fetch status must
close the waiting SOCKS requests. -/
def fetch_status_should_close_socks (status : hs_client_fetch_status_t) : Bool :=
  match status with
  | .NO_HSDIRS => true
  | .ERROR => true
  | .NOT_ALLOWED => true
  | .MISSING_INFO => false
  | .HAVE_DESC => false
  | .PENDING => false
  | .LAUNCHED => false

/-- flag_all_conn_wait_desc: every AP connection in circuit-wait state
whose v3 identity matches the service is unregistered as pending and
flagged back to waiting for a descriptor. -/
def flag_all_conn_wait_desc (service_identity_pk : Nat)
    (streams : List stream_t) : List stream_t :=
  streams.map (fun s =>
    if s.state = ap_conn_state_t.CIRCUIT_WAIT ∧ s.hs_ident = some service_identity_pk then
      { s with state := ap_conn_state_t.RENDDESC_WAIT, pending_circuit := false }
    else s)

/-- purge_hid_serv_request: drop the tracked HSDir requests for the
blinded key of this service at the current time period. -/
def purge_hid_serv_request (env : client_env) (identity_pk : Nat)
    (history : List Nat) : List Nat :=
  history.filter (fun b => b != env.blinded_pk identity_pk)

/-- connection_mark_unattached_ap: the stream is unattached and closes
with the given end reason. -/
def connection_mark_unattached_ap (s : stream_t) (reason : Nat) : stream_t :=
  { s with marked_for_close := true, end_reason := some reason }

/-- close_all_socks_conns_waiting_for_desc: close with the given reason
every renddesc-wait stream whose identity matches the service. -/
def close_all_socks_conns_waiting_for_desc (identity_pk : Nat) (reason : Nat)
    (streams : List stream_t) : List stream_t :=
  streams.map (fun s =>
    if s.state = ap_conn_state_t.RENDDESC_WAIT ∧ s.hs_ident = some identity_pk then
      connection_mark_unattached_ap s reason
    else s)

/-- find_desc_intro_point_by_ident: first descriptor intro point whose
certified auth key equals the circuit identity's intro_auth_pk. -/
def find_desc_intro_point_by_ident (ident : hs_ident_circuit_t)
    (desc : hs_descriptor_t) : Option hs_desc_intro_point_t :=
  desc.intro_points.find? (fun ip => ip.auth_key == ident.intro_auth_pk)

/-- The source scans an intro point's link specifiers, skipping
non-legacy kinds, and stops at the first legacy specifier (mismatch
breaks to the next intro point): only the first legacy id matters. -/
def first_legacy_id : List hs_desc_link_specifier_t → Option Nat
  | [] => none
  | hs_desc_link_specifier_t.legacy_id i :: _ => some i
  | hs_desc_link_specifier_t.other_ls :: rest => first_legacy_id rest

/-- find_desc_intro_point_by_legacy_id: first intro point whose first
legacy link specifier carries the given identity digest. -/
def find_desc_intro_point_by_legacy_id (legacy_id : Nat)
    (desc : hs_descriptor_t) : Option hs_desc_intro_point_t :=
  desc.intro_points.find? (fun ip => first_legacy_id ip.link_specifiers == some legacy_id)

/-- intro_point_is_usable: an intro point is usable iff the failure
cache has no entry for it, or the entry shows no generic error, no
timeout, and an unreachable count below the maximum. -/
def intro_point_is_usable
    (intro_state_find : Nat → Nat → Option hs_cache_intro_state_t)
    (service_pk : Nat) (ip : hs_desc_intro_point_t) : Bool :=
  match intro_state_find service_pk ip.auth_key with
  | none => true
  | some state =>
    if state.error then false
    else if state.timed_out then false
    else if MAX_INTRO_POINT_REACHABILITY_FAILURES ≤ state.unreachable_count then false
    else true

/-- hs_client_any_intro_points_usable: at least one usable intro point
in the descriptor. -/
def hs_client_any_intro_points_usable
    (intro_state_find : Nat → Nat → Option hs_cache_intro_state_t)
    (service_pk : Nat) (desc : hs_descriptor_t) : Bool :=
  desc.intro_points.any (intro_point_is_usable intro_state_find service_pk)

/-- can_client_refetch_desc: runs the fetch pre-checks in source order
and returns the blocking status, or none when the client may fetch. -/
def can_client_refetch_desc (env : client_env) (identity_pk : Nat) :
    Option hs_client_fetch_status_t :=
  if env.FetchHidServDescriptors = false then
    some hs_client_fetch_status_t.NOT_ALLOWED
  else if env.live_consensus = false then
    some hs_client_fetch_status_t.MISSING_INFO
  else if env.have_minimum_dir_info = false then
    some hs_client_fetch_status_t.MISSING_INFO
  else if (match env.cache_lookup identity_pk with
           | some cached_desc =>
             hs_client_any_intro_points_usable env.intro_state_find
               identity_pk cached_desc
           | none => false) then
    some hs_client_fetch_status_t.HAVE_DESC
  else if env.dir_request_pending identity_pk then
    some hs_client_fetch_status_t.PENDING
  else
    none

/-- directory_launch_v3_desc_fetch: builds and fires the anonymous
directory request (recorded in launched_fetches) and reports LAUNCHED;
the control-port event and memory wipes carry no client state. -/
def directory_launch_v3_desc_fetch (identity_pk : Nat)
    (st : hs_client_state) : hs_client_fetch_status_t × hs_client_state :=
  (hs_client_fetch_status_t.LAUNCHED,
   { st with launched_fetches := st.launched_fetches ++ [identity_pk] })

/-- pick_hsdir_v3: blinded-key derivation plus hashring choice of a
responsible HSDir not recently queried; the choice itself lives in
hs_common.c and is an environment observation here. -/
def pick_hsdir_v3 (env : client_env) (identity_pk : Nat) : Option Nat :=
  env.pick_hsdir identity_pk

/-- fetch_v3_desc: no responsible HSDir yields NO_HSDIRS, otherwise the
directory fetch is launched. -/
def fetch_v3_desc (env : client_env) (identity_pk : Nat)
    (st : hs_client_state) : hs_client_fetch_status_t × hs_client_state :=
  match pick_hsdir_v3 env identity_pk with
  | none => (hs_client_fetch_status_t.NO_HSDIRS, st)
  | some _ => directory_launch_v3_desc_fetch identity_pk st

/-- hs_client_refetch_hsdesc: pre-checks first (returning their status
untouched), then the fetch attempt; when the attempt's status requires
it, close the waiting SOCKS streams with resolve-failed and purge the
per-service HSDir request memory. -/
def hs_client_refetch_hsdesc (env : client_env) (st : hs_client_state)
    (identity_pk : Nat) : hs_client_fetch_status_t × hs_client_state :=
  match can_client_refetch_desc env identity_pk with
  | some status => (status, st)
  | none =>
    let fetched := fetch_v3_desc env identity_pk st
    if fetch_status_should_close_socks fetched.1 then
      (fetched.1,
       { fetched.2 with
         streams := close_all_socks_conns_waiting_for_desc identity_pk
           END_STREAM_REASON_RESOLVEFAILED fetched.2.streams,
         hidserv_history := purge_hid_serv_request env identity_pk
           fetched.2.hidserv_history })
    else (fetched.1, fetched.2)

/-- Modelled from the spec: hs_ident_intro_circ_is_valid lives in
hs_ident.c, which is not under src/; per the spec the circuit identity
is well-formed when its service identity and intro point auth key are
set (non-zero keys under the handle encoding). -/
def hs_ident_intro_circ_is_valid (ident : hs_ident_circuit_t) : Bool :=
  ident.identity_pk != 0 && ident.intro_auth_pk != 0

/-- intro_circ_is_ok: the three BUG-guarded validity checks on an
introduction circuit (purpose in the intro set, identity present,
identity well-formed); the anonymity check is a hard assertion and
cannot produce a return value. -/
def intro_circ_is_ok (circ : origin_circuit_t) : Bool :=
  (circ.circ.purpose == circuit_purpose_t.C_INTRODUCING ||
   circ.circ.purpose == circuit_purpose_t.C_INTRODUCE_ACK_WAIT ||
   circ.circ.purpose == circuit_purpose_t.C_INTRODUCE_ACKED) &&
  (match circ.hs_ident with
   | none => false
   | some ident => hs_ident_intro_circ_is_valid ident)

/-- Everything send_introduce1 produces: the integer status, both
circuits after the call, the threaded client state, whether a refetch
was issued and whether a path-bias use attempt was recorded. -/
structure send_i1_result where
  status : Int
  intro_circ : origin_circuit_t
  rend_circ : origin_circuit_t
  state : hs_client_state
  refetch_called : Bool
  pathbias_use_attempt : Bool
deriving DecidableEq, Repr

/-- The perm_err label of send_introduce1: mark the intro circuit with
an internal reason unless it is already marked, mark the rendezvous
circuit, and report the permanent error. -/
def send_i1_perm_err (st : hs_client_state)
    (intro_circ rend_circ : origin_circuit_t) : send_i1_result :=
  { status := -2,
    intro_circ := { intro_circ with
      circ := circuit_mark_for_close intro_circ.circ END_CIRC_REASON_INTERNAL },
    rend_circ := { rend_circ with
      circ := circuit_mark_for_close rend_circ.circ END_CIRC_REASON_INTERNAL },
    state := st,
    refetch_called := false,
    pathbias_use_attempt := false }

/-- The tran_err path of send_introduce1: fire a refetch, flag every
circuit-wait stream of the service back to waiting for a descriptor,
and report the transient error with both circuits untouched. -/
def send_i1_tran_err (env : client_env) (st : hs_client_state)
    (intro_circ rend_circ : origin_circuit_t) (identity_pk : Nat) :
    send_i1_result :=
  let st1 := (hs_client_refetch_hsdesc env st identity_pk).2
  { status := -1,
    intro_circ := intro_circ,
    rend_circ := rend_circ,
    state := { st1 with streams := flag_all_conn_wait_desc identity_pk st1.streams },
    refetch_called := true,
    pathbias_use_attempt := false }

/-- send_introduce1: validate the intro circuit, look the descriptor up
(refetch and re-park streams when it is missing or has no usable intro
point), locate the intro point matching the circuit identity, transmit
the INTRODUCE1 cell, and on success copy the intro point encryption key
and the intro auth key into the rendezvous circuit identity, move the
intro circuit to ack-wait, refresh its dirty timestamp and record a
path-bias use attempt. -/
def send_introduce1 (env : client_env) (st : hs_client_state)
    (intro_circ rend_circ : origin_circuit_t) : send_i1_result :=
  if intro_circ_is_ok intro_circ = false then
    send_i1_perm_err st intro_circ rend_circ
  else
    match intro_circ.hs_ident with
    | none => send_i1_perm_err st intro_circ rend_circ
    | some ii =>
      match env.cache_lookup ii.identity_pk with
      | none => send_i1_tran_err env st intro_circ rend_circ ii.identity_pk
      | some desc =>
        if hs_client_any_intro_points_usable env.intro_state_find
             ii.identity_pk desc = false then
          send_i1_tran_err env st intro_circ rend_circ ii.identity_pk
        else
          match find_desc_intro_point_by_ident ii desc with
          | none => send_i1_perm_err st intro_circ rend_circ
          | some ip =>
            if env.send_introduce1_ok = false then
              send_i1_perm_err st
                { intro_circ with
                  circ := circuit_mark_for_close intro_circ.circ
                    env.collab_close_reason }
                rend_circ
            else
              { status := 0,
                intro_circ := { intro_circ with
                  circ := { intro_circ.circ with
                    purpose := circuit_purpose_t.C_INTRODUCE_ACK_WAIT,
                    timestamp_dirty := env.now } },
                rend_circ := { rend_circ with
                  hs_ident := rend_circ.hs_ident.map (fun ri =>
                    { ri with
                      intro_enc_pk := ip.enc_key,
                      intro_auth_pk := ii.intro_auth_pk }) },
                state := st,
                refetch_called := false,
                pathbias_use_attempt := true }

/-- Outcome of setup_intro_circ_auth_key: the possibly-updated circuit
identity and whether a non-fatal assertion (BUG or
tor_assert_nonfatal_unreached) fired. -/
structure setup_auth_result where
  ident : hs_ident_circuit_t
  nonfatal_assert : Bool
deriving DecidableEq, Repr

/-- setup_intro_circ_auth_key: look the descriptor up; find the intro
point whose first legacy link specifier matches the chosen exit's
identity digest and copy its auth key into the circuit identity; when
the descriptor or the intro point is missing, a non-fatal assertion
fires and the identity is left untouched. -/
def setup_intro_circ_auth_key (cache_lookup : Nat → Option hs_descriptor_t)
    (chosen_exit_legacy_id : Nat) (ident : hs_ident_circuit_t) :
    setup_auth_result :=
  match cache_lookup ident.identity_pk with
  | none => { ident := ident, nonfatal_assert := true }
  | some desc =>
    match find_desc_intro_point_by_legacy_id chosen_exit_legacy_id desc with
    | some ip =>
      { ident := { ident with intro_auth_pk := ip.auth_key },
        nonfatal_assert := false }
    | none => { ident := ident, nonfatal_assert := true }

/-- Outcome of client_intro_circ_has_opened: the circuit (closing is
never requested by this handler), the identity after auth-key setup,
the non-fatal-assertion flag and the pending-stream attach request. -/
structure intro_opened_result where
  circ : circuit_t
  ident : hs_ident_circuit_t
  nonfatal_assert : Bool
  attach_pending : Bool
deriving DecidableEq, Repr

/-- client_intro_circ_has_opened: on an opened introducing circuit,
set the auth key on the circuit identity and attach pending streams. -/
def client_intro_circ_has_opened (env : client_env) (c : circuit_t)
    (ident : hs_ident_circuit_t) : intro_opened_result :=
  let s := setup_intro_circ_auth_key env.cache_lookup
    c.chosen_exit_legacy_id ident
  { circ := c,
    ident := s.ident,
    nonfatal_assert := s.nonfatal_assert,
    attach_pending := true }

/-- hs_client_reextend_intro_circuit: pick a random usable intro point
(environment choice), close with an internal reason when none remains;
with relay-early budget left, extend to it and refresh the dirty
timestamp on success; out of budget, close with finished and report
success so the driver launches a new circuit. -/
def hs_client_reextend_intro_circuit (env : client_env) (c : circuit_t)
    (ident : hs_ident_circuit_t) : Int × circuit_t :=
  match env.client_random_intro ident.identity_pk with
  | none => (-1, circuit_mark_for_close c END_CIRC_REASON_INTERNAL)
  | some ei =>
    if c.remaining_relay_early_cells ≠ 0 then
      let r := env.circuit_extend_to_new_exit ei
      if r = 0 then (0, { c with timestamp_dirty := env.now }) else (r, c)
    else (0, circuit_mark_for_close c END_CIRC_REASON_FINISHED)

/-- The close label of close_or_reextend_intro_circ: unless the intro
circuit is already marked, move it to the acked purpose and close it
with finished; close the rendezvous circuit found by cookie (it may
already be gone). -/
def close_or_reextend_close (env : client_env) (c : circuit_t)
    (ident : hs_ident_circuit_t) : Int × circuit_t × Option origin_circuit_t :=
  let c2 :=
    if c.marked_for_close.isSome then c
    else circuit_mark_for_close
      { c with purpose := circuit_purpose_t.C_INTRODUCE_ACKED }
      END_CIRC_REASON_FINISHED
  let rend := (env.get_rend_by_cookie ident.rendezvous_cookie).map (fun r =>
    { r with circ := circuit_mark_for_close r.circ END_CIRC_REASON_FINISHED })
  (-1, c2, rend)

/-- close_or_reextend_intro_circ: with the descriptor present and a
usable intro point remaining, try to re-extend; otherwise (or when the
re-extension fails) close both legs. -/
def close_or_reextend_intro_circ (env : client_env) (c : circuit_t)
    (ident : hs_ident_circuit_t) : Int × circuit_t × Option origin_circuit_t :=
  match env.cache_lookup ident.identity_pk with
  | none => close_or_reextend_close env c ident
  | some desc =>
    if hs_client_any_intro_points_usable env.intro_state_find
         ident.identity_pk desc = false then
      close_or_reextend_close env c ident
    else
      let re := hs_client_reextend_intro_circuit env c ident
      if re.1 < 0 then close_or_reextend_close env re.2 ident
      else (0, re.2, none)

/-- handle_introduce_ack_success: find the established rendezvous
circuit by cookie; when it is already joined (RENDEZVOUS2 won the
race) leave its purpose alone, otherwise move it to
ready-intro-acked with a fresh dirty timestamp; in every case move
the intro circuit to the acked purpose and close it with finished. -/
def handle_introduce_ack_success (env : client_env) (c : circuit_t)
    (ident : hs_ident_circuit_t) : circuit_t × Option origin_circuit_t :=
  let finished := circuit_mark_for_close
    { c with purpose := circuit_purpose_t.C_INTRODUCE_ACKED }
    END_CIRC_REASON_FINISHED
  match env.get_established_rend_by_cookie ident.rendezvous_cookie with
  | none => (finished, none)
  | some rend_circ =>
    if rend_circ.circ.purpose = circuit_purpose_t.C_REND_JOINED then
      (finished, some rend_circ)
    else
      (finished,
       some { rend_circ with
         circ := { rend_circ.circ with
           purpose := circuit_purpose_t.C_REND_READY_INTRO_ACKED,
           timestamp_dirty := env.now } })

/-- handle_introduce_ack_bad: revert the intro circuit to the
introducing purpose and note a generic failure for this intro point in
the failure cache. -/
def handle_introduce_ack_bad (c : circuit_t) : circuit_t :=
  { c with purpose := circuit_purpose_t.C_INTRODUCING }

/-- Everything handle_introduce_ack produces: return value, intro
circuit, updated rendezvous circuit when one was touched, and whether a
failure was noted in the intro-point failure cache. -/
structure intro_ack_result where
  ret : Int
  intro_circ : circuit_t
  rend_circ : Option origin_circuit_t
  failure_noted : Bool
deriving DecidableEq, Repr

/-- handle_introduce_ack: dispatch on the parsed INTRODUCE_ACK status:
success runs the success handler, the three NACK codes note the failure
and close or re-extend, anything else (parse failures included) is
logged and ignored. -/
def handle_introduce_ack (env : client_env) (c : circuit_t)
    (ident : hs_ident_circuit_t) (payload : List Nat) : intro_ack_result :=
  let status := env.parse_introduce_ack payload
  if status = 0 then
    let s := handle_introduce_ack_success env c ident
    { ret := 0, intro_circ := s.1, rend_circ := s.2, failure_noted := false }
  else if status = 1 ∨ status = 2 ∨ status = 3 then
    let c1 := handle_introduce_ack_bad c
    let r := close_or_reextend_intro_circ env c1 ident
    { ret := r.1, intro_circ := r.2.1, rend_circ := r.2.2, failure_noted := true }
  else
    { ret := -1, intro_circ := c, rend_circ := none, failure_noted := false }

/-- Everything hs_client_receive_introduce_ack produces: the fields of
the dispatched handler plus the path-bias use-success record. -/
structure recv_ack_result where
  ret : Int
  intro_circ : circuit_t
  rend_circ : Option origin_circuit_t
  failure_noted : Bool
  pathbias_use_success : Bool
deriving DecidableEq, Repr

/-- hs_client_receive_introduce_ack: an ack on a circuit not in
ack-wait closes it with the protocol-violation reason and skips the
path-bias accounting; otherwise the v3 (or legacy v2) handler runs and
a path-bias use success is recorded whatever the handler returned. -/
def hs_client_receive_introduce_ack (env : client_env)
    (oc : origin_circuit_t) (payload : List Nat) : recv_ack_result :=
  if oc.circ.purpose ≠ circuit_purpose_t.C_INTRODUCE_ACK_WAIT then
    { ret := -1,
      intro_circ := circuit_mark_for_close oc.circ END_CIRC_REASON_TORPROTOCOL,
      rend_circ := none,
      failure_noted := false,
      pathbias_use_success := false }
  else
    match oc.hs_ident with
    | some ident =>
      let r := handle_introduce_ack env oc.circ ident payload
      { ret := r.ret,
        intro_circ := r.intro_circ,
        rend_circ := r.rend_circ,
        failure_noted := r.failure_noted,
        pathbias_use_success := true }
    | none =>
      { ret := env.v2_introduce_ack_ret,
        intro_circ := oc.circ,
        rend_circ := none,
        failure_noted := false,
        pathbias_use_success := true }

/-- Modelled from the spec: hs_cell_parse_rendezvous2 lives in
hs_cell.c, which is not under src/; per the spec the RENDEZVOUS2
payload is exactly 64 bytes, a 32-byte Curve25519 server public key
followed by the 32-byte AUTH_MAC, and parsing fails otherwise. -/
def hs_cell_parse_rendezvous2 (payload : List Nat) : Option (List Nat) :=
  if payload.length = CURVE25519_PUBKEY_LEN + DIGEST256_LEN then some payload
  else none

/-- Modelled from the spec: hs_ntor_client_rendezvous2_mac_is_good
lives in hs_ntor.c, which is not under src/; per the spec it
constant-time compares the received AUTH_MAC with the expected one,
which semantically is byte equality. -/
def hs_ntor_client_rendezvous2_mac_is_good
    (keys : hs_ntor_rend_cell_keys_t) (auth_mac : List Nat) : Bool :=
  keys.rend_cell_auth_mac == auth_mac

/-- Modelled from the spec: hs_circuit_setup_e2e_rend_circ lives in
hs_circuit.c, which is not under src/; the spec interface
setup_e2e_keys installs the ntor key seed on the circuit and has no
failure mode, so it always reports success. -/
def hs_circuit_setup_e2e_rend_circ (_seed : List Nat) : Int := 0

/-- Everything handle_rendezvous2 produces: the integer status, the
installed end-to-end key seed when the handshake was accepted, and the
circuit after the call. -/
structure rend2_result where
  ret : Int
  installed_keys : Option (List Nat)
  circ : circuit_t
deriving DecidableEq, Repr

/-- The err label of handle_rendezvous2: the circuit closes with the
protocol-violation reason and no keys are installed. -/
def rend2_err (c : circuit_t) : rend2_result :=
  { ret := -1,
    installed_keys := none,
    circ := circuit_mark_for_close c END_CIRC_REASON_TORPROTOCOL }

/-- handle_rendezvous2: parse the cell into SERVER_PK and AUTH_MAC,
derive the rendezvous ntor keys from the circuit identity and the
server key, check the received MAC against the computed one, and
install the end-to-end keys; every failure closes the circuit with the
protocol-violation reason. -/
def handle_rendezvous2 (env : client_env) (c : circuit_t)
    (ident : hs_ident_circuit_t) (payload : List Nat) : rend2_result :=
  match hs_cell_parse_rendezvous2 payload with
  | none => rend2_err c
  | some handshake_info =>
    let server_pk := handshake_info.take CURVE25519_PUBKEY_LEN
    let auth_mac := handshake_info.drop CURVE25519_PUBKEY_LEN
    match env.ntor_keys ident.intro_auth_pk ident.rendezvous_client_kp
            ident.intro_enc_pk server_pk with
    | none => rend2_err c
    | some keys =>
      if hs_ntor_client_rendezvous2_mac_is_good keys auth_mac = false then
        rend2_err c
      else if hs_circuit_setup_e2e_rend_circ keys.ntor_key_seed < 0 then
        rend2_err c
      else
        { ret := 0, installed_keys := some keys.ntor_key_seed, circ := c }

/-- hs_client_receive_rendezvous2: a RENDEZVOUS2 on a circuit that is
neither rend-ready nor ready-intro-acked closes it with the
protocol-violation reason; otherwise the v3 (or legacy v2) handler
runs. -/
def hs_client_receive_rendezvous2 (env : client_env)
    (oc : origin_circuit_t) (payload : List Nat) : rend2_result :=
  if oc.circ.purpose ≠ circuit_purpose_t.C_REND_READY ∧
     oc.circ.purpose ≠ circuit_purpose_t.C_REND_READY_INTRO_ACKED then
    { ret := -1,
      installed_keys := none,
      circ := circuit_mark_for_close oc.circ END_CIRC_REASON_TORPROTOCOL }
  else
    match oc.hs_ident with
    | some ident => handle_rendezvous2 env oc.circ ident payload
    | none =>
      { ret := env.v2_rendezvous2_ret, installed_keys := none, circ := oc.circ }

/-- A directory connection as seen by the purge: whether it is a
hidden-service descriptor fetch, the service it is for, and its
mark-for-close flag. -/
structure dir_connection_t where
  is_fetch_hsdesc : Bool
  identity_pk : Nat
  marked_for_close : Bool
deriving DecidableEq, Repr

/-- Process-wide client state touched by the NEWNYM purge: directory
connections, the intro-point failure cache, the client descriptor
cache, the recently-queried-HSDirs memory and the live circuits. -/
structure hs_global_state where
  dir_conns : List dir_connection_t
  intro_state_cache : List (Nat × Nat × hs_cache_intro_state_t)
  desc_cache : List (Nat × hs_descriptor_t)
  hidserv_history : List Nat
  circuits : List origin_circuit_t
deriving DecidableEq, Repr

/-- One step of cancel_descriptor_fetches: a directory connection
fetching a hidden-service descriptor is marked for close, any other
connection is left alone. -/
def cancel_one_descriptor_fetch (c : dir_connection_t) : dir_connection_t :=
  if c.is_fetch_hsdesc then { c with marked_for_close := true } else c

/-- cancel_descriptor_fetches: mark for close every directory
connection currently fetching a hidden-service descriptor. -/
def cancel_descriptor_fetches (conns : List dir_connection_t) :
    List dir_connection_t :=
  conns.map cancel_one_descriptor_fetch

/-- hs_client_purge_state: cancel the in-flight descriptor fetches,
then empty the intro-point failure cache, the client descriptor cache
and the recently-queried-HSDirs memory; circuits are not touched (the
legacy v2 purge it also calls only touches v2 state). -/
def hs_client_purge_state (st : hs_global_state) : hs_global_state :=
  { dir_conns := cancel_descriptor_fetches st.dir_conns,
    intro_state_cache := [],
    desc_cache := [],
    hidserv_history := [],
    circuits := st.circuits }

/-- Sample intro point: auth key 10, encryption key 20, one legacy link
specifier with identity digest 30. -/
def ipA : hs_desc_intro_point_t :=
  { auth_key := 10, enc_key := 20,
    link_specifiers := [hs_desc_link_specifier_t.legacy_id 30] }

/-- Sample descriptor holding ipA. -/
def descA : hs_descriptor_t := { intro_points := [ipA], subcredential := 77 }

/-- Sample introduction circuit identity for service 5 armed with the
auth key of ipA. -/
def identI : hs_ident_circuit_t :=
  { identity_pk := 5, intro_auth_pk := 10, intro_enc_pk := 0,
    rendezvous_cookie := 40, rendezvous_client_kp := 8 }

/-- Sample rendezvous circuit identity for service 5 before the
INTRODUCE1 key copies. -/
def identR : hs_ident_circuit_t :=
  { identity_pk := 5, intro_auth_pk := 0, intro_enc_pk := 0,
    rendezvous_cookie := 40, rendezvous_client_kp := 8 }

/-- Sample introducing circuit whose chosen exit matches ipA. -/
def circI : circuit_t :=
  { purpose := circuit_purpose_t.C_INTRODUCING, marked_for_close := none,
    timestamp_dirty := 0, remaining_relay_early_cells := 2,
    chosen_exit_legacy_id := 30 }

/-- Sample rend-ready rendezvous circuit. -/
def circR : circuit_t :=
  { purpose := circuit_purpose_t.C_REND_READY, marked_for_close := none,
    timestamp_dirty := 0, remaining_relay_early_cells := 2,
    chosen_exit_legacy_id := 0 }

/-- Sample origin introduction circuit. -/
def ocI : origin_circuit_t := { circ := circI, hs_ident := some identI }

/-- Sample origin rendezvous circuit. -/
def ocR : origin_circuit_t := { circ := circR, hs_ident := some identR }

/-- Sample stream for service 5 waiting for a descriptor. -/
def streamW : stream_t :=
  { hs_ident := some 5, state := ap_conn_state_t.RENDDESC_WAIT,
    marked_for_close := false, end_reason := none, pending_circuit := true }

/-- Sample stream for service 5 waiting for a circuit. -/
def streamC : stream_t :=
  { hs_ident := some 5, state := ap_conn_state_t.CIRCUIT_WAIT,
    marked_for_close := false, end_reason := none, pending_circuit := true }

/-- Sample client state: one parked and one circuit-wait stream for
service 5, one recorded HSDir request for its blinded key 105. -/
def st0 : hs_client_state :=
  { streams := [streamW, streamC], hidserv_history := [105],
    launched_fetches := [] }

/-- Sample expected AUTH_MAC. -/
def macA : List Nat := List.replicate DIGEST256_LEN 1

/-- Sample rendezvous ntor keys whose expected MAC is macA. -/
def keysA : hs_ntor_rend_cell_keys_t :=
  { ntor_key_seed := [9, 9], rend_cell_auth_mac := macA }

/-- Sample RENDEZVOUS2 payload: 32-byte server key of zeros followed by
macA. -/
def payloadR2 : List Nat := List.replicate CURVE25519_PUBKEY_LEN 0 ++ macA

/-- Sample environment: fetches allowed, live consensus, enough
directory information, service 5 has descA cached, empty failure cache,
no pending directory request, an HSDir available, the rendezvous
circuit map holds ocR under cookie 40, cell transmission succeeds, the
ntor derivation yields keysA, and the INTRODUCE_ACK parser reads the
status from the first payload byte. -/
def env0 : client_env :=
  { FetchHidServDescriptors := true,
    live_consensus := true,
    have_minimum_dir_info := true,
    cache_lookup := fun pk => if pk = 5 then some descA else none,
    intro_state_find := fun _ _ => none,
    dir_request_pending := fun _ => false,
    pick_hsdir := fun _ => some 1,
    blinded_pk := fun pk => pk + 100,
    now := 1000,
    send_introduce1_ok := true,
    collab_close_reason := 3,
    ntor_keys := fun _ _ _ _ => some keysA,
    get_established_rend_by_cookie := fun c => if c = 40 then some ocR else none,
    get_rend_by_cookie := fun _ => none,
    parse_introduce_ack := fun p => match p with | [] => -1 | b :: _ => Int.ofNat b,
    client_random_intro := fun _ => some 50,
    circuit_extend_to_new_exit := fun _ => 0,
    v2_introduce_ack_ret := -1,
    v2_rendezvous2_ret := -1 }


/-- Sample environment with an empty descriptor cache and no
responsible HSDir: every pre-check passes and the fetch attempt fails
with NO_HSDIRS. -/
def envN : client_env :=
  { env0 with cache_lookup := fun _ => none, pick_hsdir := fun _ => none }

/-- Sample in-flight descriptor-fetch directory connection. -/
def dconnF : dir_connection_t :=
  { is_fetch_hsdesc := true, identity_pk := 5, marked_for_close := false }

/-- Sample directory connection that is not a descriptor fetch. -/
def dconnO : dir_connection_t :=
  { is_fetch_hsdesc := false, identity_pk := 6, marked_for_close := false }

/-- Sample process-wide state before a NEWNYM purge: one in-flight
fetch, one unrelated directory connection, one failure-cache entry, one
cached descriptor, one remembered HSDir request and two live
circuits. -/
def gst0 : hs_global_state :=
  { dir_conns := [dconnF, dconnO],
    intro_state_cache :=
      [(5, 10, { error := true, timed_out := false, unreachable_count := 1 })],
    desc_cache := [(5, descA)],
    hidserv_history := [105],
    circuits := [ocI, ocR] }

/-- Sample intro circuit waiting for its INTRODUCE_ACK. -/
def ocAW : origin_circuit_t :=
  { circ := { circI with purpose := circuit_purpose_t.C_INTRODUCE_ACK_WAIT },
    hs_ident := some identI }

/-- C4: intro_point_is_usable returns true iff either no failure-cache
entry exists for the pair, or the entry has no error, no timeout, and
an unreachable count strictly below
MAX_INTRO_POINT_REACHABILITY_FAILURES (3); with a clean entry,
usability flips exactly when the unreachable count reaches 3. -/
theorem C4_intro_point_is_usable_iff
    (find : Nat → Nat → Option hs_cache_intro_state_t)
    (service_pk : Nat) (ip : hs_desc_intro_point_t) :
    (intro_point_is_usable find service_pk ip = true ↔
      find service_pk ip.auth_key = none ∨
      ∃ state, find service_pk ip.auth_key = some state ∧
        state.error = false ∧ state.timed_out = false ∧
        state.unreachable_count < MAX_INTRO_POINT_REACHABILITY_FAILURES) ∧
    (∀ n : Nat,
      intro_point_is_usable
        (fun _ _ => some { error := false, timed_out := false,
                           unreachable_count := n })
        service_pk ip =
      decide (n < MAX_INTRO_POINT_REACHABILITY_FAILURES)) := by
  constructor
  · cases h : find service_pk ip.auth_key with
    | none => simp [intro_point_is_usable, h]
    | some state =>
      simp only [intro_point_is_usable, h]
      constructor
      · intro husable
        split_ifs at husable with he ht hu
        exact Or.inr ⟨state, rfl, by simpa using he, by simpa using ht,
          Nat.not_le.mp hu⟩
      · rintro (hnone | ⟨state2, hsome, he, ht, hu⟩)
        · cases hnone
        · injection hsome with e
          subst e
          split_ifs with he2 ht2 hu2
          · rw [he] at he2; cases he2
          · rw [ht] at ht2; cases ht2
          · exact absurd hu2 (Nat.not_le.mpr hu)
          · rfl
  · intro n
    simp only [intro_point_is_usable]
    by_cases hn : n < MAX_INTRO_POINT_REACHABILITY_FAILURES
    · simp [hn, Nat.not_le.mpr hn]
    · simp [hn, Nat.le_of_not_lt hn]

/-- C4 witness: the theorem instantiated at a concrete cache and intro
point. -/
theorem C4_witness :
    (intro_point_is_usable (fun _ _ => none) 5 ipA = true ↔
      (fun (_ : Nat) (_ : Nat) => (none : Option hs_cache_intro_state_t)) 5 ipA.auth_key = none ∨
      ∃ state, (fun (_ : Nat) (_ : Nat) => (none : Option hs_cache_intro_state_t)) 5 ipA.auth_key = some state ∧
        state.error = false ∧ state.timed_out = false ∧
        state.unreachable_count < MAX_INTRO_POINT_REACHABILITY_FAILURES) ∧
    (∀ n : Nat,
      intro_point_is_usable
        (fun _ _ => some { error := false, timed_out := false,
                           unreachable_count := n })
        5 ipA =
      decide (n < MAX_INTRO_POINT_REACHABILITY_FAILURES)) :=
  C4_intro_point_is_usable_iff (fun _ _ => none) 5 ipA

/-- Helper: the cached-descriptor pre-check condition is false when the
cache misses or the cached descriptor has no usable intro point. -/
theorem cached_desc_cond_false (env : client_env) (pk : Nat)
    (hd : env.cache_lookup pk = none ∨
      ∃ d, env.cache_lookup pk = some d ∧
        hs_client_any_intro_points_usable env.intro_state_find pk d = false) :
    (match env.cache_lookup pk with
     | some cached_desc =>
       hs_client_any_intro_points_usable env.intro_state_find pk cached_desc
     | none => false) = false := by
  rcases hd with hnone | ⟨d, hsome, hun⟩
  · rw [hnone]
  · rw [hsome]
    exact hun

/-- Helper: with all pre-checks passing, can_client_refetch_desc
reports that the client may fetch. -/
theorem can_client_refetch_desc_none (env : client_env) (pk : Nat)
    (hf : env.FetchHidServDescriptors = true)
    (hl : env.live_consensus = true)
    (hm : env.have_minimum_dir_info = true)
    (hd : env.cache_lookup pk = none ∨
      ∃ d, env.cache_lookup pk = some d ∧
        hs_client_any_intro_points_usable env.intro_state_find pk d = false)
    (hp : env.dir_request_pending pk = false) :
    can_client_refetch_desc env pk = none := by
  unfold can_client_refetch_desc
  rw [hf, hl, hm, hp, cached_desc_cond_false env pk hd]
  simp

/-- Helper: a status produced by the pre-checks is never one of the
codes fetch_v3_desc can produce. -/
theorem can_client_refetch_desc_some_cases (env : client_env) (pk : Nat)
    (s : hs_client_fetch_status_t)
    (h : can_client_refetch_desc env pk = some s) :
    s = hs_client_fetch_status_t.NOT_ALLOWED ∨
    s = hs_client_fetch_status_t.MISSING_INFO ∨
    s = hs_client_fetch_status_t.HAVE_DESC ∨
    s = hs_client_fetch_status_t.PENDING := by
  unfold can_client_refetch_desc at h
  split_ifs at h with h1 h2 h3 h4 h5
  · exact Or.inl (Option.some.inj h).symm
  · exact Or.inr (Or.inl (Option.some.inj h).symm)
  · exact Or.inr (Or.inl (Option.some.inj h).symm)
  · exact Or.inr (Or.inr (Or.inl (Option.some.inj h).symm))
  · exact Or.inr (Or.inr (Or.inr (Option.some.inj h).symm))

/-- C2: the refetch pre-checks are evaluated in source order, the first
failing check fixes the returned status and leaves the client state
untouched (no fetch attempted), and only with every pre-check passing
is the fetch attempted, whose launch is recorded. -/
theorem C2_refetch_precheck_order (env : client_env) (st : hs_client_state)
    (pk : Nat) :
    (env.FetchHidServDescriptors = false →
      hs_client_refetch_hsdesc env st pk =
        (hs_client_fetch_status_t.NOT_ALLOWED, st)) ∧
    (env.FetchHidServDescriptors = true → env.live_consensus = false →
      hs_client_refetch_hsdesc env st pk =
        (hs_client_fetch_status_t.MISSING_INFO, st)) ∧
    (env.FetchHidServDescriptors = true → env.live_consensus = true →
      env.have_minimum_dir_info = false →
      hs_client_refetch_hsdesc env st pk =
        (hs_client_fetch_status_t.MISSING_INFO, st)) ∧
    (env.FetchHidServDescriptors = true → env.live_consensus = true →
      env.have_minimum_dir_info = true →
      ∀ d, env.cache_lookup pk = some d →
        hs_client_any_intro_points_usable env.intro_state_find pk d = true →
        hs_client_refetch_hsdesc env st pk =
          (hs_client_fetch_status_t.HAVE_DESC, st)) ∧
    (env.FetchHidServDescriptors = true → env.live_consensus = true →
      env.have_minimum_dir_info = true →
      (env.cache_lookup pk = none ∨
        ∃ d, env.cache_lookup pk = some d ∧
          hs_client_any_intro_points_usable env.intro_state_find pk d = false) →
      env.dir_request_pending pk = true →
      hs_client_refetch_hsdesc env st pk =
        (hs_client_fetch_status_t.PENDING, st)) ∧
    (env.FetchHidServDescriptors = true → env.live_consensus = true →
      env.have_minimum_dir_info = true →
      (env.cache_lookup pk = none ∨
        ∃ d, env.cache_lookup pk = some d ∧
          hs_client_any_intro_points_usable env.intro_state_find pk d = false) →
      env.dir_request_pending pk = false →
      (hs_client_refetch_hsdesc env st pk).1 = (fetch_v3_desc env pk st).1 ∧
      ((env.pick_hsdir pk).isSome = true →
        pk ∈ (hs_client_refetch_hsdesc env st pk).2.launched_fetches)) := by
  refine ⟨?_, ?_, ?_, ?_, ?_, ?_⟩
  · intro hf
    simp [hs_client_refetch_hsdesc, can_client_refetch_desc, hf]
  · intro hf hl
    simp [hs_client_refetch_hsdesc, can_client_refetch_desc, hf, hl]
  · intro hf hl hm
    simp [hs_client_refetch_hsdesc, can_client_refetch_desc, hf, hl, hm]
  · intro hf hl hm d hd husable
    simp [hs_client_refetch_hsdesc, can_client_refetch_desc, hf, hl, hm, hd,
      husable]
  · intro hf hl hm hd hp
    unfold hs_client_refetch_hsdesc can_client_refetch_desc
    rw [hf, hl, hm, hp, cached_desc_cond_false env pk hd]
    simp
  · intro hf hl hm hd hp
    unfold hs_client_refetch_hsdesc
    rw [can_client_refetch_desc_none env pk hf hl hm hd hp]
    constructor
    · cases hclose : fetch_status_should_close_socks (fetch_v3_desc env pk st).1
      · simp [hclose]
      · simp [hclose]
    · intro hpick
      cases hpk : env.pick_hsdir pk with
      | none => rw [hpk] at hpick; cases hpick
      | some hsdir =>
        have hfetch : fetch_v3_desc env pk st =
            (hs_client_fetch_status_t.LAUNCHED,
             { st with launched_fetches := st.launched_fetches ++ [pk] }) := by
          unfold fetch_v3_desc pick_hsdir_v3 directory_launch_v3_desc_fetch
          rw [hpk]
        rw [hfetch]
        simp [fetch_status_should_close_socks]

/-- C2 witness: the pre-check order theorem instantiated at concrete
environments exercising the first check, the cached-descriptor check
and the launched fetch. -/
theorem C2_witness :
    (hs_client_refetch_hsdesc { env0 with FetchHidServDescriptors := false }
       st0 5 = (hs_client_fetch_status_t.NOT_ALLOWED, st0)) ∧
    (hs_client_refetch_hsdesc env0 st0 5 =
       (hs_client_fetch_status_t.HAVE_DESC, st0)) ∧
    ((hs_client_refetch_hsdesc { env0 with cache_lookup := fun _ => none }
        st0 5).1 =
      (fetch_v3_desc { env0 with cache_lookup := fun _ => none } 5 st0).1 ∧
     ((({ env0 with cache_lookup := fun _ => none } : client_env).pick_hsdir
          5).isSome = true →
       5 ∈ (hs_client_refetch_hsdesc { env0 with cache_lookup := fun _ => none }
              st0 5).2.launched_fetches)) :=
  ⟨(C2_refetch_precheck_order { env0 with FetchHidServDescriptors := false }
      st0 5).1 rfl,
   (C2_refetch_precheck_order env0 st0 5).2.2.2.1 rfl rfl rfl descA
     (by decide) (by decide),
   (C2_refetch_precheck_order { env0 with cache_lookup := fun _ => none }
      st0 5).2.2.2.2.2 rfl rfl rfl (Or.inl rfl) rfl⟩

/-- Helper: in the stream list produced by
close_all_socks_conns_waiting_for_desc, every renddesc-wait stream of
the service is marked closed with the given reason. -/
theorem close_all_socks_marks (pk reason : Nat) (streams : List stream_t)
    (s : stream_t)
    (hin : s ∈ close_all_socks_conns_waiting_for_desc pk reason streams)
    (hstate : s.state = ap_conn_state_t.RENDDESC_WAIT)
    (hident : s.hs_ident = some pk) :
    s.marked_for_close = true ∧ s.end_reason = some reason := by
  unfold close_all_socks_conns_waiting_for_desc at hin
  rcases List.mem_map.mp hin with ⟨s0, hs0, heq⟩
  by_cases hc : s0.state = ap_conn_state_t.RENDDESC_WAIT ∧ s0.hs_ident = some pk
  · rw [if_pos hc] at heq
    rw [← heq]
    exact ⟨rfl, rfl⟩
  · rw [if_neg hc] at heq
    subst heq
    exact absurd ⟨hstate, hident⟩ hc

/-- Helper: purging the hid-serv request history removes the blinded
key of the purged service. -/
theorem purge_hid_serv_request_removes (env : client_env) (pk : Nat)
    (history : List Nat) :
    env.blinded_pk pk ∉ purge_hid_serv_request env pk history := by
  unfold purge_hid_serv_request
  intro h
  have h2 := (List.mem_filter.mp h).2
  simp at h2

/-- Helper: hs_client_refetch_hsdesc has exactly three shapes: a
pre-check early return, a failed fetch attempt that closes the waiting
streams and purges the request memory, and a launched fetch. -/
theorem refetch_cases (env : client_env) (st : hs_client_state) (pk : Nat) :
    (∃ s, can_client_refetch_desc env pk = some s ∧
       hs_client_refetch_hsdesc env st pk = (s, st)) ∨
    (can_client_refetch_desc env pk = none ∧ env.pick_hsdir pk = none ∧
       hs_client_refetch_hsdesc env st pk =
         (hs_client_fetch_status_t.NO_HSDIRS,
          { st with
            streams := close_all_socks_conns_waiting_for_desc pk
              END_STREAM_REASON_RESOLVEFAILED st.streams,
            hidserv_history := purge_hid_serv_request env pk
              st.hidserv_history })) ∨
    (can_client_refetch_desc env pk = none ∧
       ∃ h, env.pick_hsdir pk = some h ∧
         hs_client_refetch_hsdesc env st pk =
           (hs_client_fetch_status_t.LAUNCHED,
            { st with launched_fetches := st.launched_fetches ++ [pk] })) := by
  cases hcan : can_client_refetch_desc env pk with
  | some s =>
    refine Or.inl ⟨s, rfl, ?_⟩
    unfold hs_client_refetch_hsdesc
    rw [hcan]
  | none =>
    cases hpk : env.pick_hsdir pk with
    | none =>
      refine Or.inr (Or.inl ⟨rfl, rfl, ?_⟩)
      unfold hs_client_refetch_hsdesc
      rw [hcan]
      have hfetch : fetch_v3_desc env pk st =
          (hs_client_fetch_status_t.NO_HSDIRS, st) := by
        unfold fetch_v3_desc pick_hsdir_v3
        rw [hpk]
      simp [hfetch, fetch_status_should_close_socks]
    | some h =>
      refine Or.inr (Or.inr ⟨rfl, h, rfl, ?_⟩)
      unfold hs_client_refetch_hsdesc
      rw [hcan]
      have hfetch : fetch_v3_desc env pk st =
          (hs_client_fetch_status_t.LAUNCHED,
           { st with launched_fetches := st.launched_fetches ++ [pk] }) := by
        unfold fetch_v3_desc pick_hsdir_v3 directory_launch_v3_desc_fetch
        rw [hpk]
      simp [hfetch, fetch_status_should_close_socks]

/-- C3 (amended): streams are closed and the HSDir request memory is
purged exactly when the fetch attempt itself fails terminally
(NoHsDirs, or the internal Error): then no renddesc-wait stream of the
service survives unclosed and its blinded key leaves the request
memory. When refetch returns NotAllowed, MissingInfo, Pending or
HaveDesc (all produced by the pre-checks before the closing logic
runs) or Launched, the stream list is untouched. -/
theorem C3_terminal_failure_policy (env : client_env) (st : hs_client_state)
    (pk : Nat) :
    (((hs_client_refetch_hsdesc env st pk).1 =
        hs_client_fetch_status_t.NO_HSDIRS ∨
      (hs_client_refetch_hsdesc env st pk).1 =
        hs_client_fetch_status_t.ERROR) →
      (∀ s ∈ (hs_client_refetch_hsdesc env st pk).2.streams,
        s.state = ap_conn_state_t.RENDDESC_WAIT → s.hs_ident = some pk →
        s.marked_for_close = true ∧
        s.end_reason = some END_STREAM_REASON_RESOLVEFAILED) ∧
      env.blinded_pk pk ∉
        (hs_client_refetch_hsdesc env st pk).2.hidserv_history) ∧
    (((hs_client_refetch_hsdesc env st pk).1 =
        hs_client_fetch_status_t.NOT_ALLOWED ∨
      (hs_client_refetch_hsdesc env st pk).1 =
        hs_client_fetch_status_t.MISSING_INFO ∨
      (hs_client_refetch_hsdesc env st pk).1 =
        hs_client_fetch_status_t.PENDING ∨
      (hs_client_refetch_hsdesc env st pk).1 =
        hs_client_fetch_status_t.HAVE_DESC ∨
      (hs_client_refetch_hsdesc env st pk).1 =
        hs_client_fetch_status_t.LAUNCHED) →
      (hs_client_refetch_hsdesc env st pk).2.streams = st.streams) := by
  rcases refetch_cases env st pk with
    ⟨s, hcan, heq⟩ | ⟨hcan, hpk, heq⟩ | ⟨hcan, h, hpk, heq⟩
  · constructor
    · intro hterm
      rw [heq] at hterm
      rcases can_client_refetch_desc_some_cases env pk s hcan with
        h1 | h1 | h1 | h1 <;> rcases hterm with h2 | h2 <;>
        (rw [h1] at h2; cases h2)
    · intro _
      rw [heq]
  · constructor
    · intro _
      rw [heq]
      constructor
      · intro s hs hstate hident
        exact close_all_socks_marks pk END_STREAM_REASON_RESOLVEFAILED
          st.streams s hs hstate hident
      · exact purge_hid_serv_request_removes env pk st.hidserv_history
    · intro hother
      rw [heq] at hother
      rcases hother with h2 | h2 | h2 | h2 | h2 <;> cases h2
  · constructor
    · intro hterm
      rw [heq] at hterm
      rcases hterm with h2 | h2 <;> cases h2
    · intro _
      rw [heq]

/-- C3 counterexample: with client fetches disabled by configuration,
refetch returns NotAllowed from the pre-check and closes nothing: the
renddesc-wait stream for service 5 survives unmarked and the HSDir
request memory still holds the blinded key 105, contradicting the
claim that NotAllowed closes every such stream and purges the
memory. -/
theorem C3_counterexample :
    (hs_client_refetch_hsdesc { env0 with FetchHidServDescriptors := false }
       st0 5).1 = hs_client_fetch_status_t.NOT_ALLOWED ∧
    streamW ∈ (hs_client_refetch_hsdesc
      { env0 with FetchHidServDescriptors := false } st0 5).2.streams ∧
    streamW.state = ap_conn_state_t.RENDDESC_WAIT ∧
    streamW.hs_ident = some 5 ∧
    streamW.marked_for_close = false ∧
    ({ env0 with FetchHidServDescriptors := false } : client_env).blinded_pk 5 ∈
      (hs_client_refetch_hsdesc { env0 with FetchHidServDescriptors := false }
        st0 5).2.hidserv_history := by
  refine ⟨?_, ?_, ?_, ?_, ?_, ?_⟩ <;> decide

/-- C3 witness: the amended policy instantiated at the NO_HSDIRS
environment; the parked stream for service 5 is closed with
resolve-failed and the blinded key leaves the request memory. -/
theorem C3_witness :
    ((hs_client_refetch_hsdesc envN st0 5).1 =
        hs_client_fetch_status_t.NO_HSDIRS ∨
     (hs_client_refetch_hsdesc envN st0 5).1 =
        hs_client_fetch_status_t.ERROR) ∧
    ((∀ s ∈ (hs_client_refetch_hsdesc envN st0 5).2.streams,
        s.state = ap_conn_state_t.RENDDESC_WAIT → s.hs_ident = some 5 →
        s.marked_for_close = true ∧
        s.end_reason = some END_STREAM_REASON_RESOLVEFAILED) ∧
      envN.blinded_pk 5 ∉
        (hs_client_refetch_hsdesc envN st0 5).2.hidserv_history) :=
  ⟨Or.inl (by decide),
   (C3_terminal_failure_policy envN st0 5).1 (Or.inl (by decide))⟩

/-- Helper: a circuit-wait stream is untouched by the stream closing a
refetch may perform (which only touches renddesc-wait streams). -/
theorem refetch_keeps_circuit_wait (env : client_env) (st : hs_client_state)
    (pk : Nat) (s : stream_t) (hs : s ∈ st.streams)
    (hstate : s.state = ap_conn_state_t.CIRCUIT_WAIT) :
    s ∈ (hs_client_refetch_hsdesc env st pk).2.streams := by
  rcases refetch_cases env st pk with
    ⟨t, _, heq⟩ | ⟨_, _, heq⟩ | ⟨_, h, _, heq⟩
  · rw [heq]
    exact hs
  · rw [heq]
    unfold close_all_socks_conns_waiting_for_desc
    have hfix :
        (if s.state = ap_conn_state_t.RENDDESC_WAIT ∧ s.hs_ident = some pk then
          connection_mark_unattached_ap s END_STREAM_REASON_RESOLVEFAILED
         else s) = s := by
      rw [if_neg]
      rintro ⟨h1, _⟩
      rw [hstate] at h1
      cases h1
    exact hfix ▸ List.mem_map_of_mem _ hs
  · rw [heq]
    exact hs

/-- Helper: flag_all_conn_wait_desc sends a matching circuit-wait
stream to the renddesc-wait, non-pending version of itself. -/
theorem flag_all_conn_wait_desc_moves (pk : Nat) (streams : List stream_t)
    (s : stream_t) (hs : s ∈ streams)
    (hstate : s.state = ap_conn_state_t.CIRCUIT_WAIT)
    (hident : s.hs_ident = some pk) :
    { s with state := ap_conn_state_t.RENDDESC_WAIT, pending_circuit := false } ∈
      flag_all_conn_wait_desc pk streams := by
  unfold flag_all_conn_wait_desc
  have hfix :
      (if s.state = ap_conn_state_t.CIRCUIT_WAIT ∧ s.hs_ident = some pk then
        { s with state := ap_conn_state_t.RENDDESC_WAIT, pending_circuit := false }
       else s) =
      { s with state := ap_conn_state_t.RENDDESC_WAIT, pending_circuit := false } :=
    if_pos ⟨hstate, hident⟩
  exact hfix ▸ List.mem_map_of_mem _ hs

/-- Helper: with a valid intro circuit and a missing or unusable
descriptor, send_introduce1 takes exactly the transient-error path. -/
theorem send_introduce1_tran_eq (env : client_env) (st : hs_client_state)
    (intro_circ rend_circ : origin_circuit_t) (ii : hs_ident_circuit_t)
    (hii : intro_circ.hs_ident = some ii)
    (hok : intro_circ_is_ok intro_circ = true)
    (hdesc : env.cache_lookup ii.identity_pk = none ∨
      ∃ d, env.cache_lookup ii.identity_pk = some d ∧
        hs_client_any_intro_points_usable env.intro_state_find
          ii.identity_pk d = false) :
    send_introduce1 env st intro_circ rend_circ =
      send_i1_tran_err env st intro_circ rend_circ ii.identity_pk := by
  unfold send_introduce1
  rw [if_neg (by simp [hok]), hii]
  rcases hdesc with hnone | ⟨d, hsome, hun⟩
  · simp only [hnone]
  · simp only [hsome, hun]
    simp

/-- C5: when the descriptor is missing or has no usable intro point,
send_introduce1 issues a refetch, re-parks every circuit-wait stream
of the service into renddesc-wait, returns the transient status -1,
and leaves both circuits exactly as they were (neither is marked for
close). -/
theorem C5_send_introduce1_transient (env : client_env)
    (st : hs_client_state) (intro_circ rend_circ : origin_circuit_t)
    (ii : hs_ident_circuit_t)
    (hii : intro_circ.hs_ident = some ii)
    (hok : intro_circ_is_ok intro_circ = true)
    (hdesc : env.cache_lookup ii.identity_pk = none ∨
      ∃ d, env.cache_lookup ii.identity_pk = some d ∧
        hs_client_any_intro_points_usable env.intro_state_find
          ii.identity_pk d = false) :
    (send_introduce1 env st intro_circ rend_circ).status = -1 ∧
    (send_introduce1 env st intro_circ rend_circ).refetch_called = true ∧
    (send_introduce1 env st intro_circ rend_circ).intro_circ = intro_circ ∧
    (send_introduce1 env st intro_circ rend_circ).rend_circ = rend_circ ∧
    (∀ s ∈ st.streams, s.state = ap_conn_state_t.CIRCUIT_WAIT →
      s.hs_ident = some ii.identity_pk →
      { s with state := ap_conn_state_t.RENDDESC_WAIT,
               pending_circuit := false } ∈
        (send_introduce1 env st intro_circ rend_circ).state.streams) := by
  rw [send_introduce1_tran_eq env st intro_circ rend_circ ii hii hok hdesc]
  refine ⟨rfl, rfl, rfl, rfl, ?_⟩
  intro s hs hstate hident
  exact flag_all_conn_wait_desc_moves ii.identity_pk _ s
    (refetch_keeps_circuit_wait env st ii.identity_pk s hs hstate)
    hstate hident

/-- C5 witness: the transient path at a concrete environment with an
empty descriptor cache, a valid introducing circuit and one
circuit-wait stream for service 5. -/
theorem C5_witness :
    intro_circ_is_ok ocI = true ∧
    envN.cache_lookup identI.identity_pk = none ∧
    ((send_introduce1 envN st0 ocI ocR).status = -1 ∧
     (send_introduce1 envN st0 ocI ocR).refetch_called = true ∧
     (send_introduce1 envN st0 ocI ocR).intro_circ = ocI ∧
     (send_introduce1 envN st0 ocI ocR).rend_circ = ocR ∧
     (∀ s ∈ st0.streams, s.state = ap_conn_state_t.CIRCUIT_WAIT →
       s.hs_ident = some identI.identity_pk →
       { s with state := ap_conn_state_t.RENDDESC_WAIT,
                pending_circuit := false } ∈
         (send_introduce1 envN st0 ocI ocR).state.streams)) :=
  ⟨by decide, rfl,
   C5_send_introduce1_transient envN st0 ocI ocR identI rfl (by decide)
     (Or.inl rfl)⟩

/-- C6: whenever send_introduce1 returns 0, the rendezvous circuit
identity holds the chosen intro point's encryption key and the intro
circuit's intro auth key, the intro circuit has moved to the
introduce-ack-wait purpose with a refreshed dirty timestamp, and a
path-bias use attempt was recorded. -/
theorem C6_send_introduce1_success (env : client_env) (st : hs_client_state)
    (intro_circ rend_circ : origin_circuit_t)
    (ii ri : hs_ident_circuit_t)
    (hii : intro_circ.hs_ident = some ii)
    (hri : rend_circ.hs_ident = some ri)
    (hstatus : (send_introduce1 env st intro_circ rend_circ).status = 0) :
    ∃ d ip, env.cache_lookup ii.identity_pk = some d ∧
      find_desc_intro_point_by_ident ii d = some ip ∧
      (send_introduce1 env st intro_circ rend_circ).rend_circ.hs_ident =
        some { ri with intro_enc_pk := ip.enc_key,
                       intro_auth_pk := ii.intro_auth_pk } ∧
      (send_introduce1 env st intro_circ rend_circ).intro_circ.circ.purpose =
        circuit_purpose_t.C_INTRODUCE_ACK_WAIT ∧
      (send_introduce1 env st intro_circ
        rend_circ).intro_circ.circ.timestamp_dirty = env.now ∧
      (send_introduce1 env st intro_circ
        rend_circ).pathbias_use_attempt = true := by
  unfold send_introduce1 at hstatus
  split at hstatus
  · simp [send_i1_perm_err] at hstatus
  · rename_i hok
    rw [hii] at hstatus
    simp only [] at hstatus
    cases hcache : env.cache_lookup ii.identity_pk with
    | none =>
      rw [hcache] at hstatus
      simp [send_i1_tran_err] at hstatus
    | some d =>
      rw [hcache] at hstatus
      simp only [] at hstatus
      split at hstatus
      · simp [send_i1_tran_err] at hstatus
      · rename_i hun
        cases hfind : find_desc_intro_point_by_ident ii d with
        | none =>
          rw [hfind] at hstatus
          simp [send_i1_perm_err] at hstatus
        | some ip =>
          rw [hfind] at hstatus
          simp only [] at hstatus
          split at hstatus
          · simp [send_i1_perm_err] at hstatus
          · rename_i hsendok
            refine ⟨d, ip, rfl, hfind, ?_, ?_, ?_, ?_⟩ <;>
              (unfold send_introduce1
               rw [if_neg hok, hii]
               simp only [hcache, hfind, if_neg hun, if_neg hsendok, hri,
                 Option.map_some'])

/-- C6 witness: the success postconditions at the happy-path
environment where service 5 has descA cached and the cell send
succeeds. -/
theorem C6_witness :
    (send_introduce1 env0 st0 ocI ocR).status = 0 ∧
    (∃ d ip, env0.cache_lookup identI.identity_pk = some d ∧
      find_desc_intro_point_by_ident identI d = some ip ∧
      (send_introduce1 env0 st0 ocI ocR).rend_circ.hs_ident =
        some { identR with intro_enc_pk := ip.enc_key,
                           intro_auth_pk := identI.intro_auth_pk } ∧
      (send_introduce1 env0 st0 ocI ocR).intro_circ.circ.purpose =
        circuit_purpose_t.C_INTRODUCE_ACK_WAIT ∧
      (send_introduce1 env0 st0
        ocI ocR).intro_circ.circ.timestamp_dirty = env0.now ∧
      (send_introduce1 env0 st0 ocI ocR).pathbias_use_attempt = true) :=
  ⟨by decide,
   C6_send_introduce1_success env0 st0 ocI ocR identI identR rfl rfl
     (by decide)⟩

/-- C7: on an INTRODUCE_ACK with success status, when the established
rendezvous circuit for the cookie exists: if it is already rend-joined
its purpose is untouched, otherwise it moves to ready-intro-acked with
a fresh dirty timestamp; in both cases the intro circuit moves to the
acked purpose and is marked for close with the finished reason. -/
theorem C7_introduce_ack_success (env : client_env) (c : circuit_t)
    (ident : hs_ident_circuit_t) (rc : origin_circuit_t) (payload : List Nat)
    (hparse : env.parse_introduce_ack payload = 0)
    (hrc : env.get_established_rend_by_cookie ident.rendezvous_cookie = some rc)
    (hm : c.marked_for_close = none) :
    (handle_introduce_ack env c ident payload).ret = 0 ∧
    (handle_introduce_ack env c ident payload).intro_circ.purpose =
      circuit_purpose_t.C_INTRODUCE_ACKED ∧
    (handle_introduce_ack env c ident payload).intro_circ.marked_for_close =
      some END_CIRC_REASON_FINISHED ∧
    (rc.circ.purpose = circuit_purpose_t.C_REND_JOINED →
      (handle_introduce_ack env c ident payload).rend_circ = some rc) ∧
    (rc.circ.purpose ≠ circuit_purpose_t.C_REND_JOINED →
      (handle_introduce_ack env c ident payload).rend_circ =
        some { rc with circ := { rc.circ with
          purpose := circuit_purpose_t.C_REND_READY_INTRO_ACKED,
          timestamp_dirty := env.now } }) := by
  by_cases hj : rc.circ.purpose = circuit_purpose_t.C_REND_JOINED
  · simp [handle_introduce_ack, handle_introduce_ack_success, hparse, hrc, hj,
      circuit_mark_for_close, hm]
  · simp [handle_introduce_ack, handle_introduce_ack_success, hparse, hrc, hj,
      circuit_mark_for_close, hm]

/-- C7 witness: a success ack on the sample intro circuit, with the
established rendezvous circuit ocR (in rend-ready) found under
cookie 40. -/
theorem C7_witness :
    env0.parse_introduce_ack [0] = 0 ∧
    env0.get_established_rend_by_cookie identI.rendezvous_cookie = some ocR ∧
    ((handle_introduce_ack env0 circI identI [0]).ret = 0 ∧
     (handle_introduce_ack env0 circI identI [0]).intro_circ.purpose =
       circuit_purpose_t.C_INTRODUCE_ACKED ∧
     (handle_introduce_ack env0 circI identI [0]).intro_circ.marked_for_close =
       some END_CIRC_REASON_FINISHED ∧
     (ocR.circ.purpose = circuit_purpose_t.C_REND_JOINED →
       (handle_introduce_ack env0 circI identI [0]).rend_circ = some ocR) ∧
     (ocR.circ.purpose ≠ circuit_purpose_t.C_REND_JOINED →
       (handle_introduce_ack env0 circI identI [0]).rend_circ =
         some { ocR with circ := { ocR.circ with
           purpose := circuit_purpose_t.C_REND_READY_INTRO_ACKED,
           timestamp_dirty := env0.now } })) :=
  ⟨by decide, by decide,
   C7_introduce_ack_success env0 circI identI ocR [0] (by decide) (by decide)
     rfl⟩

/-- C8 (amended): when an introducing circuit opens and the descriptor
is missing, or no intro point matches the chosen exit's legacy
identity, a non-fatal assertion is raised and the circuit identity's
intro_auth_pk is left unset; the handler does not mark the circuit for
close (it even proceeds to attach pending streams). -/
theorem C8_intro_circ_opened_no_close (env : client_env) (c : circuit_t)
    (ident : hs_ident_circuit_t)
    (_hpurp : c.purpose = circuit_purpose_t.C_INTRODUCING)
    (hdesc : env.cache_lookup ident.identity_pk = none ∨
      ∃ d, env.cache_lookup ident.identity_pk = some d ∧
        find_desc_intro_point_by_legacy_id c.chosen_exit_legacy_id d = none) :
    (client_intro_circ_has_opened env c ident).nonfatal_assert = true ∧
    (client_intro_circ_has_opened env c ident).ident = ident ∧
    (client_intro_circ_has_opened env c ident).circ = c ∧
    (client_intro_circ_has_opened env c ident).attach_pending = true := by
  rcases hdesc with hnone | ⟨d, hsome, hfind⟩
  · simp [client_intro_circ_has_opened, setup_intro_circ_auth_key, hnone]
  · simp [client_intro_circ_has_opened, setup_intro_circ_auth_key, hsome,
      hfind]

/-- C8 counterexample: an introducing circuit opens while the
descriptor cache is empty; the non-fatal assertion fires but the
circuit is not marked for close at all, contradicting the claim that
it is closed with the internal reason. -/
theorem C8_counterexample :
    circI.purpose = circuit_purpose_t.C_INTRODUCING ∧
    envN.cache_lookup identI.identity_pk = none ∧
    (client_intro_circ_has_opened envN circI identI).nonfatal_assert = true ∧
    ¬ (client_intro_circ_has_opened envN circI
        identI).circ.marked_for_close = some END_CIRC_REASON_INTERNAL ∧
    (client_intro_circ_has_opened envN circI identI).circ.marked_for_close =
      none := by
  refine ⟨?_, ?_, ?_, ?_, ?_⟩ <;> decide

/-- C8 witness: the amended behaviour at the concrete empty-cache
environment. -/
theorem C8_witness :
    circI.purpose = circuit_purpose_t.C_INTRODUCING ∧
    envN.cache_lookup identI.identity_pk = none ∧
    ((client_intro_circ_has_opened envN circI identI).nonfatal_assert = true ∧
     (client_intro_circ_has_opened envN circI identI).ident = identI ∧
     (client_intro_circ_has_opened envN circI identI).circ = circI ∧
     (client_intro_circ_has_opened envN circI identI).attach_pending = true) :=
  ⟨rfl, rfl,
   C8_intro_circ_opened_no_close envN circI identI rfl (Or.inl rfl)⟩

/-- C9: the NEWNYM purge marks for close every in-flight
descriptor-fetch directory connection (leaving other directory
connections alone), empties the intro-point failure cache, the client
descriptor cache and the recently-queried-HSDirs memory, and does not
touch any circuit. -/
theorem C9_purge_state (st : hs_global_state) (c : dir_connection_t) :
    (hs_client_purge_state st).intro_state_cache = [] ∧
    (hs_client_purge_state st).desc_cache = [] ∧
    (hs_client_purge_state st).hidserv_history = [] ∧
    (hs_client_purge_state st).circuits = st.circuits ∧
    (c ∈ st.dir_conns → c.is_fetch_hsdesc = true →
      { c with marked_for_close := true } ∈
        (hs_client_purge_state st).dir_conns) ∧
    (c ∈ st.dir_conns → c.is_fetch_hsdesc = false →
      c ∈ (hs_client_purge_state st).dir_conns) := by
  refine ⟨rfl, rfl, rfl, rfl, ?_, ?_⟩
  · intro hin hf
    have hone : cancel_one_descriptor_fetch c =
        { c with marked_for_close := true } := by
      simp [cancel_one_descriptor_fetch, hf]
    exact hone ▸ List.mem_map_of_mem _ hin
  · intro hin hf
    have hone : cancel_one_descriptor_fetch c = c := by
      simp [cancel_one_descriptor_fetch, hf]
    exact hone ▸ List.mem_map_of_mem _ hin

/-- C9 witness: the purge at the sample state marks the in-flight
fetch, keeps the unrelated directory connection, and leaves the two
circuits untouched. -/
theorem C9_witness :
    { dconnF with marked_for_close := true } ∈
      (hs_client_purge_state gst0).dir_conns ∧
    dconnO ∈ (hs_client_purge_state gst0).dir_conns ∧
    (hs_client_purge_state gst0).circuits = gst0.circuits :=
  ⟨(C9_purge_state gst0 dconnF).2.2.2.2.1 (by decide) rfl,
   (C9_purge_state gst0 dconnO).2.2.2.2.2 (by decide) rfl,
   (C9_purge_state gst0 dconnF).2.2.2.1⟩

/-- C10: every INTRODUCE_ACK received on a circuit in the ack-wait
purpose records a path-bias use success, whatever the parsed status
(success, the NACK codes, or unknown codes alike); an ack on a circuit
in any other purpose records no path-bias event and the circuit closes
with the protocol-violation reason. -/
theorem C10_receive_introduce_ack_pathbias (env : client_env)
    (oc : origin_circuit_t) (payload : List Nat) :
    (oc.circ.purpose = circuit_purpose_t.C_INTRODUCE_ACK_WAIT →
      (hs_client_receive_introduce_ack env oc payload).pathbias_use_success =
        true) ∧
    (oc.circ.purpose ≠ circuit_purpose_t.C_INTRODUCE_ACK_WAIT →
      (hs_client_receive_introduce_ack env oc payload).pathbias_use_success =
        false ∧
      (oc.circ.marked_for_close = none →
        (hs_client_receive_introduce_ack env oc
          payload).intro_circ.marked_for_close =
          some END_CIRC_REASON_TORPROTOCOL)) := by
  constructor
  · intro hp
    unfold hs_client_receive_introduce_ack
    rw [if_neg (by simp [hp])]
    cases hid : oc.hs_ident with
    | some ident => simp
    | none => simp
  · intro hp
    unfold hs_client_receive_introduce_ack
    rw [if_pos hp]
    exact ⟨rfl, fun hm => by simp [circuit_mark_for_close, hm]⟩

/-- C10 witness: path bias is recorded for a success ack, a failure
NACK and an unknown status alike on the ack-wait circuit, and skipped
(with a protocol-violation close) on an introducing circuit. -/
theorem C10_witness :
    (hs_client_receive_introduce_ack env0 ocAW [0]).pathbias_use_success =
      true ∧
    (hs_client_receive_introduce_ack env0 ocAW [1]).pathbias_use_success =
      true ∧
    (hs_client_receive_introduce_ack env0 ocAW [7]).pathbias_use_success =
      true ∧
    ((hs_client_receive_introduce_ack env0 ocI [0]).pathbias_use_success =
       false ∧
     (hs_client_receive_introduce_ack env0 ocI
       [0]).intro_circ.marked_for_close = some END_CIRC_REASON_TORPROTOCOL) :=
  ⟨(C10_receive_introduce_ack_pathbias env0 ocAW [0]).1 rfl,
   (C10_receive_introduce_ack_pathbias env0 ocAW [1]).1 rfl,
   (C10_receive_introduce_ack_pathbias env0 ocAW [7]).1 rfl,
   ⟨((C10_receive_introduce_ack_pathbias env0 ocI [0]).2 (by decide)).1,
    ((C10_receive_introduce_ack_pathbias env0 ocI [0]).2 (by decide)).2 rfl⟩⟩

/-- C1: on a rendezvous circuit in rend-ready or ready-intro-acked
purpose, the RENDEZVOUS2 handler installs end-to-end keys and returns
success exactly when the cell parses, the ntor derivation from
(intro_auth_pk, client keypair, intro_enc_pk, server_pk) succeeds, and
the computed AUTH_MAC equals the received one; on any mismatch or
parse or derivation failure the circuit is marked for close with the
protocol-violation reason, no keys are installed and -1 is returned. -/
theorem C1_rendezvous2_mac_gate (env : client_env) (oc : origin_circuit_t)
    (ident : hs_ident_circuit_t) (payload : List Nat)
    (hid : oc.hs_ident = some ident)
    (hp : oc.circ.purpose = circuit_purpose_t.C_REND_READY ∨
          oc.circ.purpose = circuit_purpose_t.C_REND_READY_INTRO_ACKED)
    (hm : oc.circ.marked_for_close = none) :
    (((hs_client_receive_rendezvous2 env oc payload).ret = 0 ∧
      (hs_client_receive_rendezvous2 env oc payload).installed_keys ≠ none) ↔
      (∃ hi keys, hs_cell_parse_rendezvous2 payload = some hi ∧
        env.ntor_keys ident.intro_auth_pk ident.rendezvous_client_kp
          ident.intro_enc_pk (hi.take CURVE25519_PUBKEY_LEN) = some keys ∧
        keys.rend_cell_auth_mac = hi.drop CURVE25519_PUBKEY_LEN)) ∧
    (∀ hi keys, hs_cell_parse_rendezvous2 payload = some hi →
      env.ntor_keys ident.intro_auth_pk ident.rendezvous_client_kp
        ident.intro_enc_pk (hi.take CURVE25519_PUBKEY_LEN) = some keys →
      keys.rend_cell_auth_mac = hi.drop CURVE25519_PUBKEY_LEN →
      (hs_client_receive_rendezvous2 env oc payload).ret = 0 ∧
      (hs_client_receive_rendezvous2 env oc payload).installed_keys =
        some keys.ntor_key_seed ∧
      (hs_client_receive_rendezvous2 env oc payload).circ = oc.circ) ∧
    (¬ (∃ hi keys, hs_cell_parse_rendezvous2 payload = some hi ∧
         env.ntor_keys ident.intro_auth_pk ident.rendezvous_client_kp
           ident.intro_enc_pk (hi.take CURVE25519_PUBKEY_LEN) = some keys ∧
         keys.rend_cell_auth_mac = hi.drop CURVE25519_PUBKEY_LEN) →
      (hs_client_receive_rendezvous2 env oc payload).ret = -1 ∧
      (hs_client_receive_rendezvous2 env oc payload).installed_keys = none ∧
      (hs_client_receive_rendezvous2 env oc payload).circ.marked_for_close =
        some END_CIRC_REASON_TORPROTOCOL) := by
  have hrv : hs_client_receive_rendezvous2 env oc payload =
      handle_rendezvous2 env oc.circ ident payload := by
    unfold hs_client_receive_rendezvous2
    rw [if_neg (by rcases hp with h | h <;> simp [h]), hid]
  rw [hrv]
  cases hparse : hs_cell_parse_rendezvous2 payload with
  | none =>
    have h1 : handle_rendezvous2 env oc.circ ident payload =
        rend2_err oc.circ := by
      unfold handle_rendezvous2
      rw [hparse]
    rw [h1]
    refine ⟨?_, ?_, ?_⟩
    · constructor
      · rintro ⟨h0, _⟩
        simp [rend2_err] at h0
      · rintro ⟨hi, keys, hpp, _, _⟩
        cases hpp
    · intro hi keys hpp
      cases hpp
    · intro _
      refine ⟨rfl, rfl, ?_⟩
      simp [rend2_err, circuit_mark_for_close, hm]
  | some hi =>
    cases hkeys : env.ntor_keys ident.intro_auth_pk ident.rendezvous_client_kp
        ident.intro_enc_pk (hi.take CURVE25519_PUBKEY_LEN) with
    | none =>
      have h1 : handle_rendezvous2 env oc.circ ident payload =
          rend2_err oc.circ := by
        unfold handle_rendezvous2
        rw [hparse]
        simp only [hkeys]
      rw [h1]
      refine ⟨?_, ?_, ?_⟩
      · constructor
        · rintro ⟨h0, _⟩
          simp [rend2_err] at h0
        · rintro ⟨hi2, keys2, hpp, hkk, _⟩
          injection hpp with e
          subst e
          rw [hkeys] at hkk
          cases hkk
      · intro hi2 keys2 hpp hkk
        injection hpp with e
        subst e
        rw [hkeys] at hkk
        cases hkk
      · intro _
        refine ⟨rfl, rfl, ?_⟩
        simp [rend2_err, circuit_mark_for_close, hm]
    | some keys =>
      by_cases hmac : hs_ntor_client_rendezvous2_mac_is_good keys
          (hi.drop CURVE25519_PUBKEY_LEN) = false
      · have h1 : handle_rendezvous2 env oc.circ ident payload =
            rend2_err oc.circ := by
          unfold handle_rendezvous2
          rw [hparse]
          simp only [hkeys, hmac]
          simp
        have hne : keys.rend_cell_auth_mac ≠ hi.drop CURVE25519_PUBKEY_LEN := by
          simpa [hs_ntor_client_rendezvous2_mac_is_good] using hmac
        rw [h1]
        refine ⟨?_, ?_, ?_⟩
        · constructor
          · rintro ⟨h0, _⟩
            simp [rend2_err] at h0
          · rintro ⟨hi2, keys2, hpp, hkk, hmm⟩
            injection hpp with e
            subst e
            rw [hkeys] at hkk
            injection hkk with e2
            subst e2
            exact absurd hmm hne
        · intro hi2 keys2 hpp hkk hmm
          injection hpp with e
          subst e
          rw [hkeys] at hkk
          injection hkk with e2
          subst e2
          exact absurd hmm hne
        · intro _
          refine ⟨rfl, rfl, ?_⟩
          simp [rend2_err, circuit_mark_for_close, hm]
      · have htrue : hs_ntor_client_rendezvous2_mac_is_good keys
            (hi.drop CURVE25519_PUBKEY_LEN) = true :=
          Bool.not_eq_false _ ▸ eq_true_of_ne_false hmac
        have heq : keys.rend_cell_auth_mac = hi.drop CURVE25519_PUBKEY_LEN := by
          simpa [hs_ntor_client_rendezvous2_mac_is_good] using htrue
        have h1 : handle_rendezvous2 env oc.circ ident payload =
            { ret := 0, installed_keys := some keys.ntor_key_seed,
              circ := oc.circ } := by
          unfold handle_rendezvous2
          rw [hparse]
          simp only [hkeys, htrue]
          simp [hs_circuit_setup_e2e_rend_circ]
        rw [h1]
        refine ⟨?_, ?_, ?_⟩
        · constructor
          · intro _
            exact ⟨hi, keys, rfl, hkeys, heq⟩
          · intro _
            exact ⟨rfl, by simp⟩
        · intro hi2 keys2 hpp hkk _
          injection hpp with e
          subst e
          rw [hkeys] at hkk
          injection hkk with e2
          subst e2
          exact ⟨rfl, rfl, rfl⟩
        · intro hno
          exact absurd ⟨hi, keys, rfl, hkeys, heq⟩ hno

/-- C1 witness: a well-formed RENDEZVOUS2 payload whose AUTH_MAC
matches the derived keys is accepted on the sample rend-ready circuit
and installs the key seed. -/
theorem C1_witness :
    (hs_client_receive_rendezvous2 env0 ocR payloadR2).ret = 0 ∧
    (hs_client_receive_rendezvous2 env0 ocR payloadR2).installed_keys =
      some keysA.ntor_key_seed ∧
    (hs_client_receive_rendezvous2 env0 ocR payloadR2).circ = ocR.circ :=
  (C1_rendezvous2_mac_gate env0 ocR identR payloadR2 rfl (Or.inl rfl)
      rfl).2.1 payloadR2 keysA (by decide) rfl (by decide)
